import Mathlib

/-!
# URI service interface of the developer-driver layer (`ddUriInterface.h`)

A shallow embedding of `DevDriver::IService` and of the request envelope it
works on, followed by the properties of the default method bodies.

Conventions of the embedding:

* a raw pointer or a `SharedPointer` is `Option Nat`: `none` is the null
  pointer, `some a` the address `a`;
* everything a method may read or write lives in `Memory`, which is passed in
  and returned explicitly: the character buffers, the server blocks, the data
  members of the service object and the `URIRequestContext` objects. A context
  is ordinary memory behind the raw pointer `pContext`, so the code of an
  override that runs during a call can read and write it like anything else;
* a virtual method is a field holding the overriding body, `none` when the
  class under study does not override it; dispatch picks the override when
  there is one and the base-class body otherwise.
-/

namespace DevDriver

/-- Enumeration `URIDataFormat : uint32`. An enumeration with a fixed
underlying type admits every value of that type, so a format is a `uint32`
value; the declared enumerators are the four constants below. -/
structure URIDataFormat where
  /-- The value in the underlying type `uint32`. -/
  toUInt32 : Fin 4294967296
  deriving DecidableEq

/-- Enumerator `Unknown = 0`. -/
def URIDataFormat.Unknown : URIDataFormat := ⟨0⟩

/-- Enumerator `Text`, the successor of `Unknown`. -/
def URIDataFormat.Text : URIDataFormat := ⟨1⟩

/-- Enumerator `Binary`, the successor of `Text`. -/
def URIDataFormat.Binary : URIDataFormat := ⟨2⟩

/-- Enumerator `Count`, the successor of `Binary`. -/
def URIDataFormat.Count : URIDataFormat := ⟨3⟩

/-- Modelled from the spec: the enumeration `Result` is declared in `gpuopen.h`,
which is not among the sources. The interface names `Result::Success` and
`Result::Error`; the error taxonomy of the specification is `Success`, `Error`
and further failure codes that callers treat like `Error`. `Other code` stands
for any such further enumerator. -/
inductive Result where
  | Success
  | Error
  | Other (code : Nat)
  deriving DecidableEq

/-- Struct `URIRequestContext`. -/
structure URIRequestContext where
  /-- Mutable arguments passed to the request (`char*`). -/
  pRequestArguments : Option Nat
  /-- Data provided by the client along with the request (`const void*`). -/
  pPostData : Option Nat
  /-- Size of the post data pointed to by `pPostData` (`uint32`). -/
  postDataSize : Nat
  /-- The format of the data sent along with the request. -/
  postDataFormat : URIDataFormat
  /-- A server block to write the response data into (`SharedPointer`). -/
  pResponseBlock : Option Nat
  /-- The format of the data written into the response block. -/
  responseDataFormat : URIDataFormat
  deriving DecidableEq

/-- Program state: all the memory a method can reach. -/
structure Memory where
  /-- Contents of the character buffers, by address (`char*` targets). -/
  strings : Nat → List Char
  /-- Contents of the server blocks, by address (`ServerBlock` is only forward
  declared in the interface, so a block is its byte contents). -/
  blocks : Nat → List Nat
  /-- The request contexts, by address (`URIRequestContext*` targets). -/
  contexts : Nat → URIRequestContext
  /-- Data members of the service object. -/
  object : List Nat

/-- The store `p->responseDataFormat = f` through a context pointer `p`. -/
def Memory.storeResponseDataFormat (m : Memory) (p : Nat) (f : URIDataFormat) : Memory :=
  { m with
    contexts := fun q =>
      if q = p then { m.contexts q with responseDataFormat := f } else m.contexts q }

/-- Class `IService`: the pure virtual `GetName` and, for each virtual method
with a body in the base class, the body of the override if the service has
one. -/
structure IService where
  /-- `GetName()`, pure virtual. -/
  GetName : String
  /-- Override of `HandleRequest(char*, SharedPointer<ServerBlock>)`. -/
  legacyOverride : Option (Option Nat → Option Nat → Memory → Result × Memory)
  /-- Override of `HandleRequest(URIRequestContext*)`. -/
  contextOverride : Option (Option Nat → Memory → Result × Memory)
  /-- Override of `QueryPostSizeLimit(char*)`. -/
  postSizeLimitOverride : Option (Option Nat → Memory → Nat × Memory)

/-- Modelled from the spec: the macro `DD_NOT_IMPLEMENTED` comes from
`ddPlatform.h`, which is not among the sources. The specification keeps the
logging and assertion layers out of scope and describes the unimplemented
method as reporting an error for that call; the macro is a diagnostic that
leaves the program state as it is. -/
def DD_NOT_IMPLEMENTED (m : Memory) : Memory := m

/-- Modelled from the spec: the macro `DD_ASSERT` comes from `ddPlatform.h`,
which is not among the sources. Execution continues past it when the condition
holds; when it fails there is no defined continuation. -/
def DD_ASSERT (cond : Bool) : Option Unit :=
  if cond then some () else none

/-- Base-class body of `IService::HandleRequest(char*, SharedPointer<ServerBlock>)`:
both parameters are unused, the call is reported as not implemented and the
result is `Result::Error`. -/
def IService.HandleRequestLegacyBase (_pArguments : Option Nat) (_pBlock : Option Nat)
    (m : Memory) : Result × Memory :=
  (Result.Error, DD_NOT_IMPLEMENTED m)

/-- Virtual call of `HandleRequest(char*, SharedPointer<ServerBlock>)`. -/
def IService.HandleRequestLegacy (svc : IService) (pArguments : Option Nat)
    (pBlock : Option Nat) (m : Memory) : Result × Memory :=
  match svc.legacyOverride with
  | some body => body pArguments pBlock m
  | none => IService.HandleRequestLegacyBase pArguments pBlock m

/-- Base-class body of `IService::HandleRequest(URIRequestContext*)`: assert
that the context pointer is not null, read `pRequestArguments` and
`pResponseBlock` through it and make the virtual call of the two-argument
overload on them, then store `Text` into `pContext->responseDataFormat` when
that call returned `Success`, and return its result. The store goes through
the pointer into the memory the call left. -/
def IService.HandleRequestBase (svc : IService) (pContext : Option Nat) (m : Memory) :
    Option (Result × Memory) :=
  match DD_ASSERT pContext.isSome, pContext with
  | some (), some p =>
    let call := svc.HandleRequestLegacy (m.contexts p).pRequestArguments
      (m.contexts p).pResponseBlock m
    let result := call.1
    if result = Result.Success then
      some (result, call.2.storeResponseDataFormat p URIDataFormat.Text)
    else
      some (result, call.2)
  | _, _ => none

/-- Virtual call of `HandleRequest(URIRequestContext*)`: an override runs on
whatever pointer it is given. -/
def IService.HandleRequest (svc : IService) (pContext : Option Nat) (m : Memory) :
    Option (Result × Memory) :=
  match svc.contextOverride with
  | some body => some (body pContext m)
  | none => svc.HandleRequestBase pContext m

/-- Base-class body of `IService::QueryPostSizeLimit(char*)`: the parameter is
unused and the limit is 0. -/
def IService.QueryPostSizeLimitBase (_pArguments : Option Nat) (m : Memory) : Nat × Memory :=
  (0, m)

/-- Virtual call of `QueryPostSizeLimit(char*)`. -/
def IService.QueryPostSizeLimit (svc : IService) (pArguments : Option Nat) (m : Memory) :
    Nat × Memory :=
  match svc.postSizeLimitOverride with
  | some body => body pArguments m
  | none => IService.QueryPostSizeLimitBase pArguments m

/-! ## Sample services and inputs -/

/-- Sample context: arguments at address 7, no post data, response block at
address 3, response format not yet set. -/
def sampleContext : URIRequestContext :=
  { pRequestArguments := some 7, pPostData := none, postDataSize := 0,
    postDataFormat := URIDataFormat.Unknown, pResponseBlock := some 3,
    responseDataFormat := URIDataFormat.Unknown }

/-- Sample context with null arguments and the response format preset to
`Binary`. -/
def nullArgsContext : URIRequestContext :=
  { pRequestArguments := none, pPostData := none, postDataSize := 0,
    postDataFormat := URIDataFormat.Unknown, pResponseBlock := some 3,
    responseDataFormat := URIDataFormat.Binary }

/-- Sample memory: the buffer at address 7 holds the text `ab`, every block is
empty, the context at address 5 is `sampleContext` and every other context is
`nullArgsContext`. -/
def sampleMemory : Memory :=
  { strings := fun a => if a = 7 then ['a', 'b'] else [],
    blocks := fun _ => [],
    contexts := fun q => if q = 5 then sampleContext else nullArgsContext,
    object := [] }

/-- Body of a two-argument handler: with null arguments or a null block it
fails with `Other 9`; otherwise it copies the character codes of the arguments
into the block, empties the argument buffer, counts the call in the object and
succeeds. It does not touch any context. -/
def echoBody (pArguments : Option Nat) (pBlock : Option Nat) (m : Memory) : Result × Memory :=
  match pArguments, pBlock with
  | some a, some b =>
    (Result.Success,
      { m with
        strings := fun x => if x = a then [] else m.strings x,
        blocks := fun x => if x = b then (m.strings a).map Char.toNat else m.blocks x,
        object := 1 :: m.object })
  | _, _ => (Result.Other 9, m)

/-- A service written against the two-argument contract only. -/
def echoService : IService :=
  { GetName := "echo", legacyOverride := some echoBody, contextOverride := none,
    postSizeLimitOverride := none }

/-- Body of a two-argument handler that knows where the caller keeps its
context (address 5): it writes `Binary` into the response format and 5 into
the post data size of that context, and fails with `Error`. -/
def aliasBody (_pArguments : Option Nat) (_pBlock : Option Nat) (m : Memory) :
    Result × Memory :=
  (Result.Error,
    { m with
      contexts := fun q =>
        if q = 5 then
          { m.contexts q with responseDataFormat := URIDataFormat.Binary, postDataSize := 5 }
        else m.contexts q })

/-- A service written against the two-argument contract only, whose handler
writes to the context of the caller. -/
def aliasService : IService :=
  { GetName := "alias", legacyOverride := some aliasBody, contextOverride := none,
    postSizeLimitOverride := none }

/-- A service that overrides none of the virtual methods with a body. -/
def bareService : IService :=
  { GetName := "bare", legacyOverride := none, contextOverride := none,
    postSizeLimitOverride := none }

/-- A service whose `HandleRequest(URIRequestContext*)` override returns
`Success` at once, writing nothing and leaving the context as it is. -/
def silentService : IService :=
  { GetName := "silent", legacyOverride := none,
    contextOverride := some (fun _pContext m => (Result.Success, m)),
    postSizeLimitOverride := none }

/-! ## Shared lemmas on the base-class bodies -/

/-- On a non-null context pointer the base body of
`HandleRequest(URIRequestContext*)` always returns: its value is spelled out in
terms of the virtual call of the two-argument overload. -/
theorem HandleRequestBase_some (svc : IService) (p : Nat) (m : Memory) :
    svc.HandleRequestBase (some p) m =
      some ((svc.HandleRequestLegacy (m.contexts p).pRequestArguments
          (m.contexts p).pResponseBlock m).1,
        (if (svc.HandleRequestLegacy (m.contexts p).pRequestArguments
            (m.contexts p).pResponseBlock m).1 = Result.Success
          then (svc.HandleRequestLegacy (m.contexts p).pRequestArguments
            (m.contexts p).pResponseBlock m).2.storeResponseDataFormat p URIDataFormat.Text
          else (svc.HandleRequestLegacy (m.contexts p).pRequestArguments
            (m.contexts p).pResponseBlock m).2)) := by
  simp only [IService.HandleRequestBase, DD_ASSERT, Option.isSome_some, if_true]
  split_ifs <;> rfl

/-- A service without an override of the context overload runs the base body. -/
theorem HandleRequest_of_no_override (svc : IService) (hC : svc.contextOverride = none)
    (pContext : Option Nat) (m : Memory) :
    svc.HandleRequest pContext m = svc.HandleRequestBase pContext m := by
  simp only [IService.HandleRequest, hC]

/-- The virtual call of the two-argument overload runs the override when the
service has one. -/
theorem HandleRequestLegacy_of_override (svc : IService)
    (legacy : Option Nat → Option Nat → Memory → Result × Memory)
    (hL : svc.legacyOverride = some legacy) (a b : Option Nat) (m : Memory) :
    svc.HandleRequestLegacy a b m = legacy a b m := by
  simp only [IService.HandleRequestLegacy, hL]

/-- The virtual call of the two-argument overload runs the base body when the
service has no override. -/
theorem HandleRequestLegacy_of_no_override (svc : IService) (hL : svc.legacyOverride = none)
    (a b : Option Nat) (m : Memory) :
    svc.HandleRequestLegacy a b m = (Result.Error, m) := by
  simp only [IService.HandleRequestLegacy, hL, IService.HandleRequestLegacyBase,
    DD_NOT_IMPLEMENTED]

/-- The adapter on a service written against the two-argument contract only. -/
theorem HandleRequest_legacy_only (svc : IService)
    (legacy : Option Nat → Option Nat → Memory → Result × Memory)
    (hL : svc.legacyOverride = some legacy) (hC : svc.contextOverride = none)
    (p : Nat) (m : Memory) :
    svc.HandleRequest (some p) m =
      some ((legacy (m.contexts p).pRequestArguments (m.contexts p).pResponseBlock m).1,
        (if (legacy (m.contexts p).pRequestArguments (m.contexts p).pResponseBlock m).1
            = Result.Success
          then (legacy (m.contexts p).pRequestArguments
            (m.contexts p).pResponseBlock m).2.storeResponseDataFormat p URIDataFormat.Text
          else (legacy (m.contexts p).pRequestArguments (m.contexts p).pResponseBlock m).2)) := by
  rw [HandleRequest_of_no_override svc hC, HandleRequestBase_some,
    HandleRequestLegacy_of_override svc legacy hL]

/-- The store of a response format through `p` is read back at `p`. -/
theorem storeResponseDataFormat_read (m : Memory) (p : Nat) (f : URIDataFormat) :
    ((m.storeResponseDataFormat p f).contexts p).responseDataFormat = f := by
  simp [Memory.storeResponseDataFormat]

/-- Claim C1: for a service that implements only the two-argument
`HandleRequest`, any non-null context pointer and any memory (so whatever
`responseDataFormat` the context starts with and whatever the two-argument
method writes, the context included), if the two-argument call returns
`Success` then the default `HandleRequest(URIRequestContext*)` returns and
leaves `pContext->responseDataFormat = Text`, which is not `Unknown`. -/
theorem adapter_success_forces_text (svc : IService)
    (legacy : Option Nat → Option Nat → Memory → Result × Memory)
    (hL : svc.legacyOverride = some legacy) (hC : svc.contextOverride = none)
    (p : Nat) (m : Memory)
    (hS : (legacy (m.contexts p).pRequestArguments (m.contexts p).pResponseBlock m).1
      = Result.Success) :
    ∃ out, svc.HandleRequest (some p) m = some out ∧
      (out.2.contexts p).responseDataFormat = URIDataFormat.Text ∧
      (out.2.contexts p).responseDataFormat ≠ URIDataFormat.Unknown := by
  refine ⟨_, HandleRequest_legacy_only svc legacy hL hC p m, ?_⟩
  simp only [hS, if_true]
  rw [storeResponseDataFormat_read]
  exact ⟨rfl, by decide⟩

/-- Witness for C1: the echo service on the context at address 5, whose
response format starts as `Unknown`. -/
theorem adapter_success_forces_text_witness :
    echoService.legacyOverride = some echoBody ∧ echoService.contextOverride = none ∧
      (sampleMemory.contexts 5).responseDataFormat = URIDataFormat.Unknown ∧
      (echoBody (sampleMemory.contexts 5).pRequestArguments
        (sampleMemory.contexts 5).pResponseBlock sampleMemory).1 = Result.Success ∧
      ∃ out, echoService.HandleRequest (some 5) sampleMemory = some out ∧
        (out.2.contexts 5).responseDataFormat = URIDataFormat.Text ∧
        (out.2.contexts 5).responseDataFormat ≠ URIDataFormat.Unknown :=
  ⟨rfl, rfl, rfl, rfl,
    adapter_success_forces_text echoService echoBody rfl rfl 5 sampleMemory rfl⟩

/-- Claim C3: for a service that implements only the two-argument
`HandleRequest` and any non-null context pointer, the default
`HandleRequest(URIRequestContext*)` returns, and its result is exactly the
result of the two-argument call on the forwarded `pRequestArguments` and
`pResponseBlock`; so it is `Success` exactly when that call's result is. -/
theorem adapter_returns_legacy_result (svc : IService)
    (legacy : Option Nat → Option Nat → Memory → Result × Memory)
    (hL : svc.legacyOverride = some legacy) (hC : svc.contextOverride = none)
    (p : Nat) (m : Memory) :
    ∃ out, svc.HandleRequest (some p) m = some out ∧
      out.1 = (legacy (m.contexts p).pRequestArguments (m.contexts p).pResponseBlock m).1 ∧
      (out.1 = Result.Success ↔
        (legacy (m.contexts p).pRequestArguments (m.contexts p).pResponseBlock m).1
          = Result.Success) := by
  exact ⟨_, HandleRequest_legacy_only svc legacy hL hC p m, rfl, Iff.rfl⟩

/-- Witness for C3: the echo service on the context at address 6, which has
null arguments, where the two-argument call fails with a code other than
`Error`. -/
theorem adapter_returns_legacy_result_witness :
    echoService.legacyOverride = some echoBody ∧ echoService.contextOverride = none ∧
      (echoBody (sampleMemory.contexts 6).pRequestArguments
        (sampleMemory.contexts 6).pResponseBlock sampleMemory).1 = Result.Other 9 ∧
      ∃ out, echoService.HandleRequest (some 6) sampleMemory = some out ∧
        out.1 = (echoBody (sampleMemory.contexts 6).pRequestArguments
          (sampleMemory.contexts 6).pResponseBlock sampleMemory).1 ∧
        (out.1 = Result.Success ↔
          (echoBody (sampleMemory.contexts 6).pRequestArguments
            (sampleMemory.contexts 6).pResponseBlock sampleMemory).1 = Result.Success) :=
  ⟨rfl, rfl, rfl,
    adapter_returns_legacy_result echoService echoBody rfl rfl 6 sampleMemory⟩

/-- Claim C4, as amended: for a service that implements only the two-argument
`HandleRequest` and any non-null context pointer, if the two-argument call
returns a result other than `Success` then the default
`HandleRequest(URIRequestContext*)` returns and writes nothing of its own: the
memory on return, the context included, is exactly the memory that call left.
So `pContext->responseDataFormat` has its entry value whenever the
two-argument call itself left that field as it was. -/
theorem adapter_failure_keeps_format (svc : IService)
    (legacy : Option Nat → Option Nat → Memory → Result × Memory)
    (hL : svc.legacyOverride = some legacy) (hC : svc.contextOverride = none)
    (p : Nat) (m : Memory)
    (hF : (legacy (m.contexts p).pRequestArguments (m.contexts p).pResponseBlock m).1
      ≠ Result.Success) :
    ∃ out, svc.HandleRequest (some p) m = some out ∧
      out.2 = (legacy (m.contexts p).pRequestArguments (m.contexts p).pResponseBlock m).2 ∧
      (((legacy (m.contexts p).pRequestArguments
            (m.contexts p).pResponseBlock m).2.contexts p).responseDataFormat
          = (m.contexts p).responseDataFormat →
        (out.2.contexts p).responseDataFormat = (m.contexts p).responseDataFormat) := by
  refine ⟨_, HandleRequest_legacy_only svc legacy hL hC p m, ?_⟩
  rw [if_neg hF]
  exact ⟨rfl, fun h => h⟩

/-- Witness for C4 as amended: the echo service fails on the context at
address 6, which it does not write to, and the preset format `Binary` is
kept. -/
theorem adapter_failure_keeps_format_witness :
    echoService.legacyOverride = some echoBody ∧ echoService.contextOverride = none ∧
      (echoBody (sampleMemory.contexts 6).pRequestArguments
        (sampleMemory.contexts 6).pResponseBlock sampleMemory).1 ≠ Result.Success ∧
      ((echoBody (sampleMemory.contexts 6).pRequestArguments
          (sampleMemory.contexts 6).pResponseBlock sampleMemory).2.contexts 6).responseDataFormat
        = (sampleMemory.contexts 6).responseDataFormat ∧
      ∃ out, echoService.HandleRequest (some 6) sampleMemory = some out ∧
        out.2 = (echoBody (sampleMemory.contexts 6).pRequestArguments
          (sampleMemory.contexts 6).pResponseBlock sampleMemory).2 ∧
        (((echoBody (sampleMemory.contexts 6).pRequestArguments
              (sampleMemory.contexts 6).pResponseBlock sampleMemory).2.contexts
                6).responseDataFormat
            = (sampleMemory.contexts 6).responseDataFormat →
          (out.2.contexts 6).responseDataFormat
            = (sampleMemory.contexts 6).responseDataFormat) :=
  ⟨rfl, rfl, by decide, rfl,
    adapter_failure_keeps_format echoService echoBody rfl rfl 6 sampleMemory (by decide)⟩

/-- Counterexample to C4 as stated: the alias service implements only the
two-argument `HandleRequest`, which fails with `Error` after writing `Binary`
into the response format of the context at address 5. The default
`HandleRequest(URIRequestContext*)` on that context returns `Error` with
`responseDataFormat = Binary`, while it was `Unknown` on entry. -/
theorem alias_failure_changes_format :
    aliasService.legacyOverride = some aliasBody ∧ aliasService.contextOverride = none ∧
      (aliasBody (sampleMemory.contexts 5).pRequestArguments
        (sampleMemory.contexts 5).pResponseBlock sampleMemory).1 ≠ Result.Success ∧
      (sampleMemory.contexts 5).responseDataFormat = URIDataFormat.Unknown ∧
      (aliasService.HandleRequest (some 5) sampleMemory).map
          (fun out => (out.1, (out.2.contexts 5).responseDataFormat))
        = some (Result.Error, URIDataFormat.Binary) ∧
      URIDataFormat.Binary ≠ URIDataFormat.Unknown :=
  ⟨rfl, rfl, by decide, rfl, rfl, by decide⟩

/-- Claim C6, as amended: for a service that does not override
`HandleRequest(URIRequestContext*)` and any non-null context pointer, the call
returns, and if its result is `Success` then `pContext->responseDataFormat` on
return is `Text`, hence `Text` or `Binary` and not `Unknown`. For a service that
does override it, the call returns exactly what the override returns and
leaves, the response format included. -/
theorem base_success_format (svc : IService) (p : Nat) (m : Memory) :
    (svc.contextOverride = none →
      ∃ out, svc.HandleRequest (some p) m = some out ∧
        (out.1 = Result.Success →
          (out.2.contexts p).responseDataFormat = URIDataFormat.Text ∧
          ((out.2.contexts p).responseDataFormat = URIDataFormat.Text ∨
            (out.2.contexts p).responseDataFormat = URIDataFormat.Binary) ∧
          (out.2.contexts p).responseDataFormat ≠ URIDataFormat.Unknown)) ∧
      (∀ body, svc.contextOverride = some body →
        svc.HandleRequest (some p) m = some (body (some p) m)) := by
  constructor
  · intro hC
    refine ⟨_, (HandleRequest_of_no_override svc hC (some p) m).trans
      (HandleRequestBase_some svc p m), ?_⟩
    intro hS
    simp only at hS
    rw [if_pos hS, storeResponseDataFormat_read]
    exact ⟨rfl, Or.inl rfl, by decide⟩
  · intro body hB
    simp only [IService.HandleRequest, hB]

/-- Witness for C6 as amended: the echo service has no override of the context
overload and its call on the context at address 5 succeeds, leaving `Text`;
the silent service has an override, and the call returns what it returns. -/
theorem base_success_format_witness :
    echoService.contextOverride = none ∧
      (∃ out, echoService.HandleRequest (some 5) sampleMemory = some out ∧
        (out.1 = Result.Success →
          (out.2.contexts 5).responseDataFormat = URIDataFormat.Text ∧
          ((out.2.contexts 5).responseDataFormat = URIDataFormat.Text ∨
            (out.2.contexts 5).responseDataFormat = URIDataFormat.Binary) ∧
          (out.2.contexts 5).responseDataFormat ≠ URIDataFormat.Unknown)) ∧
      (echoService.HandleRequest (some 5) sampleMemory).map (fun out => out.1)
        = some Result.Success ∧
      silentService.HandleRequest (some 5) sampleMemory
        = some (Result.Success, sampleMemory) :=
  ⟨rfl, (base_success_format echoService 5 sampleMemory).1 rfl, rfl,
    (base_success_format silentService 5 sampleMemory).2 _ rfl⟩

/-- Counterexample to C6 as stated: a service whose override of
`HandleRequest(URIRequestContext*)` returns `Success` without touching the
context. The input meets the constraints on requests (no post data, a valid
response block that is empty on entry), the result is `Success`, and the
response format on return is `Unknown`, neither `Text` nor `Binary`. -/
theorem override_success_unknown_format :
    (sampleMemory.contexts 5).pPostData = none ∧
      (sampleMemory.contexts 5).pResponseBlock = some 3 ∧
      sampleMemory.blocks 3 = [] ∧
      (silentService.HandleRequest (some 5) sampleMemory).map
          (fun out => (out.1, (out.2.contexts 5).responseDataFormat))
        = some (Result.Success, URIDataFormat.Unknown) ∧
      ¬ (URIDataFormat.Unknown = URIDataFormat.Text ∨
          URIDataFormat.Unknown = URIDataFormat.Binary) :=
  ⟨rfl, rfl, rfl, rfl, by decide⟩

/-! ## The unimplemented two-argument `HandleRequest` -/

/-- Claim C5: for a service that does not override the two-argument
`HandleRequest`, every call, on any arguments pointer, block and memory,
returns `Result::Error`, which is not `Success`. -/
theorem legacy_base_returns_error (svc : IService) (hL : svc.legacyOverride = none)
    (pArguments pBlock : Option Nat) (m : Memory) :
    (svc.HandleRequestLegacy pArguments pBlock m).1 = Result.Error ∧
      (svc.HandleRequestLegacy pArguments pBlock m).1 ≠ Result.Success := by
  rw [HandleRequestLegacy_of_no_override svc hL]
  exact ⟨rfl, fun h => Result.noConfusion h⟩

/-- Witness for C5: the bare service, called on the sample arguments. -/
theorem legacy_base_returns_error_witness :
    bareService.legacyOverride = none ∧
      (bareService.HandleRequestLegacy (some 7) (some 3) sampleMemory).1 = Result.Error ∧
      (bareService.HandleRequestLegacy (some 7) (some 3) sampleMemory).1 ≠ Result.Success :=
  ⟨rfl, legacy_base_returns_error bareService rfl (some 7) (some 3) sampleMemory⟩

/-- Claim C8: for a service that overrides neither `HandleRequest` overload and
any non-null context pointer, `HandleRequest(URIRequestContext*)` returns
`Result::Error` and leaves the whole memory as it was on entry: the context
(so `responseDataFormat` too), the argument string and the response block. -/
theorem unimplemented_is_hard_failure (svc : IService) (hL : svc.legacyOverride = none)
    (hC : svc.contextOverride = none) (p : Nat) (m : Memory) :
    svc.HandleRequest (some p) m = some (Result.Error, m) := by
  rw [HandleRequest_of_no_override svc hC, HandleRequestBase_some,
    HandleRequestLegacy_of_no_override svc hL]
  simp

/-- Witness for C8: the bare service on the context at address 5. -/
theorem unimplemented_is_hard_failure_witness :
    bareService.legacyOverride = none ∧ bareService.contextOverride = none ∧
      bareService.HandleRequest (some 5) sampleMemory = some (Result.Error, sampleMemory) :=
  ⟨rfl, rfl, unimplemented_is_hard_failure bareService rfl rfl 5 sampleMemory⟩

/-! ## The default `QueryPostSizeLimit` -/

/-- Claim C2: for a service that does not override `QueryPostSizeLimit`, the
limit returned is 0 for every arguments pointer (null included) and every
memory (so whatever the argument string holds, the empty string included). -/
theorem default_post_size_limit_zero (svc : IService)
    (hQ : svc.postSizeLimitOverride = none) (pArguments : Option Nat) (m : Memory) :
    (svc.QueryPostSizeLimit pArguments m).1 = 0 := by
  simp only [IService.QueryPostSizeLimit, hQ, IService.QueryPostSizeLimitBase]

/-- Witness for C2: the echo service queried with a null arguments pointer. -/
theorem default_post_size_limit_zero_witness :
    echoService.postSizeLimitOverride = none ∧
      (echoService.QueryPostSizeLimit none sampleMemory).1 = 0 :=
  ⟨rfl, default_post_size_limit_zero echoService rfl none sampleMemory⟩

/-- Claim C7: for a service that does not override `QueryPostSizeLimit`, the
query leaves the memory as it was (every argument string keeps its contents),
a second query on the same arguments returns the same limit as the first, and
a `HandleRequest` call made after the query sees what it would have seen
without the query. -/
theorem default_post_size_limit_pure (svc : IService)
    (hQ : svc.postSizeLimitOverride = none) (pArguments : Option Nat) (m : Memory) :
    (svc.QueryPostSizeLimit pArguments m).2 = m ∧
      (∀ a, (svc.QueryPostSizeLimit pArguments m).2.strings a = m.strings a) ∧
      (svc.QueryPostSizeLimit pArguments (svc.QueryPostSizeLimit pArguments m).2).1
        = (svc.QueryPostSizeLimit pArguments m).1 ∧
      (svc.QueryPostSizeLimit pArguments (svc.QueryPostSizeLimit pArguments m).2).2 = m ∧
      (∀ pContext, svc.HandleRequest pContext (svc.QueryPostSizeLimit pArguments m).2
        = svc.HandleRequest pContext m) := by
  have h : ∀ x, svc.QueryPostSizeLimit pArguments x = (0, x) := by
    intro x
    simp only [IService.QueryPostSizeLimit, hQ, IService.QueryPostSizeLimitBase]
  simp only [h, implies_true, and_self]

/-- Witness for C7: the echo service queried on the buffer at address 7. -/
theorem default_post_size_limit_pure_witness :
    echoService.postSizeLimitOverride = none ∧
      (echoService.QueryPostSizeLimit (some 7) sampleMemory).2 = sampleMemory ∧
      (∀ a, (echoService.QueryPostSizeLimit (some 7) sampleMemory).2.strings a
        = sampleMemory.strings a) ∧
      (echoService.QueryPostSizeLimit (some 7)
          (echoService.QueryPostSizeLimit (some 7) sampleMemory).2).1
        = (echoService.QueryPostSizeLimit (some 7) sampleMemory).1 ∧
      (echoService.QueryPostSizeLimit (some 7)
          (echoService.QueryPostSizeLimit (some 7) sampleMemory).2).2 = sampleMemory ∧
      (∀ pContext,
        echoService.HandleRequest pContext
            (echoService.QueryPostSizeLimit (some 7) sampleMemory).2
          = echoService.HandleRequest pContext sampleMemory) :=
  ⟨rfl, default_post_size_limit_pure echoService rfl (some 7) sampleMemory⟩

/-! ## The enumeration `URIDataFormat` -/

/-- Claim C9, as amended: `URIDataFormat` is an enumerated tag over `uint32`
with the four declared enumerators `Unknown = 0`, `Text = 1`, `Binary = 2` and
`Count = 3`. They are pairwise distinct and `Unknown` is the zero value. A
value of the type is any `uint32` value, determined by that value; it is one of
`Unknown`, `Text` and `Binary` exactly when its value is below that of `Count`,
and one of the four enumerators exactly when its value is at most 3. -/
theorem URIDataFormat_enumerators :
    (URIDataFormat.Unknown.toUInt32.val = 0 ∧ URIDataFormat.Text.toUInt32.val = 1 ∧
        URIDataFormat.Binary.toUInt32.val = 2 ∧ URIDataFormat.Count.toUInt32.val = 3) ∧
      (URIDataFormat.Unknown ≠ URIDataFormat.Text ∧
        URIDataFormat.Unknown ≠ URIDataFormat.Binary ∧
        URIDataFormat.Unknown ≠ URIDataFormat.Count ∧
        URIDataFormat.Text ≠ URIDataFormat.Binary ∧
        URIDataFormat.Text ≠ URIDataFormat.Count ∧
        URIDataFormat.Binary ≠ URIDataFormat.Count) ∧
      Function.Injective (fun f : URIDataFormat => f.toUInt32.val) ∧
      (∀ v : Nat, v < 2 ^ 32 → ∃ f : URIDataFormat, f.toUInt32.val = v) ∧
      (∀ f : URIDataFormat,
        (f = URIDataFormat.Unknown ∨ f = URIDataFormat.Text ∨ f = URIDataFormat.Binary) ↔
          f.toUInt32 < URIDataFormat.Count.toUInt32) ∧
      (∀ f : URIDataFormat,
        (f = URIDataFormat.Unknown ∨ f = URIDataFormat.Text ∨ f = URIDataFormat.Binary ∨
            f = URIDataFormat.Count) ↔
          f.toUInt32.val ≤ 3) := by
  refine ⟨⟨rfl, rfl, rfl, rfl⟩, by decide, ?_, ?_, ?_, ?_⟩
  · rintro ⟨⟨a, ha⟩⟩ ⟨⟨b, hb⟩⟩ h
    simp only at h
    subst h
    rfl
  · intro v hv
    exact ⟨⟨⟨v, hv⟩⟩, rfl⟩
  · rintro ⟨⟨a, ha⟩⟩
    simp only [URIDataFormat.Unknown, URIDataFormat.Text, URIDataFormat.Binary,
      URIDataFormat.Count, URIDataFormat.mk.injEq, Fin.lt_def, Fin.ext_iff]
    change (a = 0 ∨ a = 1 ∨ a = 2) ↔ a < 3
    omega
  · rintro ⟨⟨a, ha⟩⟩
    simp only [URIDataFormat.Unknown, URIDataFormat.Text, URIDataFormat.Binary,
      URIDataFormat.Count, URIDataFormat.mk.injEq, Fin.ext_iff]
    change (a = 0 ∨ a = 1 ∨ a = 2 ∨ a = 3) ↔ a ≤ 3
    omega

/-- Counterexample to C9 as stated: the enumerator `Count`, of value 3, and the
value 7 are values of `URIDataFormat` that are none of `Unknown`, `Text` and
`Binary`. -/
theorem URIDataFormat_count_is_fourth :
    URIDataFormat.Count.toUInt32.val = 3 ∧
      ¬ (URIDataFormat.Count = URIDataFormat.Unknown ∨
          URIDataFormat.Count = URIDataFormat.Text ∨
          URIDataFormat.Count = URIDataFormat.Binary) ∧
      ¬ ((⟨7⟩ : URIDataFormat) = URIDataFormat.Unknown ∨
          (⟨7⟩ : URIDataFormat) = URIDataFormat.Text ∨
          (⟨7⟩ : URIDataFormat) = URIDataFormat.Binary) :=
  ⟨rfl, by decide, by decide⟩

end DevDriver
